import Mathlib

/-
Verification of the frequency-tagged pinger repository.

The repository holds two variants of the same small Node.js program:
src/index.js and src/unnamed/part_000. Each variant, at startup, resolves
an endpoint URL from the environment variable API_ENDPOINT (falling back
to a hardcoded default), defines an async function callAPI that issues one
HTTP GET with a 30000 ms timeout and logs the outcome, invokes callAPI
once, and registers two signal handlers. The part_000 variant additionally
calls a function getFrequency on the current hour before the HTTP call;
that function is defined nowhere under src/.

The embedding below models the network as a function from the issued
request to an axios-style result (a response, or an error that may carry
an attached response), and models one invocation of callAPI as a pure
function returning the list of requests issued and a structured report of
what the invocation surfaced through its log statements.
-/

/-- An HTTP response as axios presents it: a status code and a body.
The body is kept opaque as a string. -/
structure Response where
  status : Nat
  data : String

/-- An axios-style error: a message and, when the remote side answered
with a non-network failure, the attached response (error.response). -/
structure AxiosError where
  message : String
  response : Option Response

/-- The outcome of one axios.get call: either a response is received or
the call rejects with an error. -/
inductive HttpResult where
  | ok (r : Response)
  | err (e : AxiosError)

/-- An outbound HTTP request, with every field the axios config literal
in the source can set. In both variants the config is exactly
a GET with timeout 30000 and nothing else (src/index.js lines 15-17,
src/unnamed/part_000 lines 17-19). -/
structure Request where
  method : String
  url : String
  params : List (String × String)
  data : Option String
  headers : List (String × String)
  timeout : Nat
  auth : Option String

/-- The request built by axios.get of both variants: a plain GET to the
endpoint with only the timeout option set. -/
def mkRequest (endpoint : String) : Request :=
  { method := "GET"
    url := endpoint
    params := []
    data := none
    headers := []
    timeout := 30000
    auth := none }

/-- What one invocation surfaces through its console statements.
success carries the status value included in the success logs, when one
is logged, and the logged body; failure carries the error message and the
status and body of the attached response when the catch block logs them
(src/index.js lines 28-34, src/unnamed/part_000 lines 23-29). -/
inductive Report where
  | success (surfacedStatus : Option Nat) (surfacedData : String)
  | failure (message : String) (surfacedStatus : Option Nat) (surfacedData : Option String)

/-- The observable effect of one invocation of callAPI: the requests it
issued, in order, and the report it surfaced. -/
structure Outcome where
  requests : List Request
  report : Report

/-- Returns true iff the remote status code is among the values the
report surfaces. -/
def surfacesStatus : Report → Bool
  | Report.success (some _) _ => true
  | Report.failure _ (some _) _ => true
  | _ => false

/-- The hardcoded fallback endpoint, line 5 of both variants. -/
def API_ENDPOINT_default : String :=
  "https://cloud.blackbox.ai/api/cron/resume-stalled"

/-- Modelled from the spec: the function getFrequency is applied at
src/unnamed/part_000 line 13 but is defined nowhere under src/; the spec
(section 4.1, operation classify) and the repository README give its
divisibility rules, evaluated in priority order 24, 12, 6, 4, 3, 2 with
the first match winning and 1x otherwise. -/
def getFrequency (hour : Nat) : String :=
  if hour % 24 = 0 then "24x"
  else if hour % 12 = 0 then "12x"
  else if hour % 6 = 0 then "6x"
  else if hour % 4 = 0 then "4x"
  else if hour % 3 = 0 then "3x"
  else if hour % 2 = 0 then "2x"
  else "1x"

/-- The extensional mapping the spec enumerates in section 8, written as
the spec words it: an explicit table over the hours 0 to 23, to be
compared with the rule-based getFrequency. -/
def classifySpecTable (h : Nat) : String :=
  if h = 0 then "24x"
  else if h = 12 then "12x"
  else if h = 6 ∨ h = 18 then "6x"
  else if h = 4 ∨ h = 8 ∨ h = 16 ∨ h = 20 then "4x"
  else if h = 3 ∨ h = 9 ∨ h = 15 ∨ h = 21 then "3x"
  else if h = 2 ∨ h = 10 ∨ h = 14 ∨ h = 22 then "2x"
  else "1x"

/-- A statement at the top level of one of the source files, in the order
the file executes them. -/
inductive TopAction where
  | requireModule (name : String)
  | constBinding (name : String)
  | functionDecl (name : String)
  | consoleLog (msg : String)
  | invokeCallAPI
  | cronSchedule (pattern : String)
  | onSignal (sig : String)

/-- Returns true on the statement that invokes callAPI. -/
def isInvokeCallAPI : TopAction → Bool
  | TopAction.invokeCallAPI => true
  | _ => false

/-- Returns true on a cron.schedule registration statement. -/
def isCronSchedule : TopAction → Bool
  | TopAction.cronSchedule _ => true
  | _ => false

/-- Returns true on the require of the named module. -/
def isRequireOf (n : String) : TopAction → Bool
  | TopAction.requireModule m => m = n
  | _ => false

namespace IndexJs

/-- Line 5 of src/index.js: process.env.API_ENDPOINT with a falsy
fallback to the hardcoded default, so an unset variable and an empty
string both resolve to the default. -/
def API_ENDPOINT (env : Option String) : String :=
  match env with
  | some s => if s = "" then API_ENDPOINT_default else s
  | none => API_ENDPOINT_default

/-- One invocation of callAPI in src/index.js (lines 9-35): issue one
GET to the endpoint with timeout 30000; on a response, log success with
the response body (line 19 logs only response.data); on an error, log
the error message and, when error.response is present, its status and
data (lines 28-33). -/
def callAPI (endpoint : String) (net : Request → HttpResult) : Outcome :=
  { requests := [mkRequest endpoint]
    report :=
      match net (mkRequest endpoint) with
      | HttpResult.ok r => Report.success none r.data
      | HttpResult.err e =>
          Report.failure e.message
            (Option.map Response.status e.response)
            (Option.map Response.data e.response) }

/-- The top-level statements of src/index.js in execution order
(lines 1-51): two requires, the endpoint binding, the hoisted function
declaration, three log lines, one invocation of callAPI, and two signal
handler registrations. No cron.schedule call appears anywhere. -/
def toplevel : List TopAction :=
  [ TopAction.requireModule "node-cron"
  , TopAction.requireModule "axios"
  , TopAction.constBinding "API_ENDPOINT"
  , TopAction.functionDecl "callAPI"
  , TopAction.consoleLog "Cron job scheduler started"
  , TopAction.consoleLog "Job will run at the start of every hour (0 * * * *)"
  , TopAction.consoleLog "Running initial API call..."
  , TopAction.invokeCallAPI
  , TopAction.onSignal "SIGTERM"
  , TopAction.onSignal "SIGINT" ]

end IndexJs

namespace Part000

/-- Line 5 of src/unnamed/part_000, identical to line 5 of src/index.js:
process.env.API_ENDPOINT with a falsy fallback to the default. -/
def API_ENDPOINT (env : Option String) : String :=
  match env with
  | some s => if s = "" then API_ENDPOINT_default else s
  | none => API_ENDPOINT_default

/-- Whether a binding named getFrequency is in scope in
src/unnamed/part_000. The top-level bindings of the file are cron,
axios, API_ENDPOINT and callAPI (lines 1-47); getFrequency is not among
them, and neither required module injects it, so the name is undefined. -/
def getFrequencyDefined : Bool := false

/-- One invocation of callAPI in src/unnamed/part_000 (lines 9-30).
The try block first evaluates getFrequency(currentHour) (line 13):
when the name is not in scope this throws a ReferenceError with message
getFrequency is not defined, which the catch block logs with no attached
response, and the axios.get on line 17 is never reached. When the name
is in scope (gfDefined, with gf its implementation), the frequency is
computed but never attached to the request; the GET goes to the bare
endpoint with timeout 30000, success logs response.status and
response.data (lines 21-22), and the catch block logs the error message
and any attached response status and data (lines 23-29). -/
def callAPI (gfDefined : Bool) (gf : Nat → String) (hour : Nat)
    (endpoint : String) (net : Request → HttpResult) : Outcome :=
  if gfDefined then
    let _frequency := gf hour
    { requests := [mkRequest endpoint]
      report :=
        match net (mkRequest endpoint) with
        | HttpResult.ok r => Report.success (some r.status) r.data
        | HttpResult.err e =>
            Report.failure e.message
              (Option.map Response.status e.response)
              (Option.map Response.data e.response) }
  else
    { requests := []
      report := Report.failure "getFrequency is not defined" none none }

/-- The top-level statements of src/unnamed/part_000 in execution order
(lines 1-47), identical in shape to those of src/index.js. No
cron.schedule call appears anywhere. -/
def toplevel : List TopAction :=
  [ TopAction.requireModule "node-cron"
  , TopAction.requireModule "axios"
  , TopAction.constBinding "API_ENDPOINT"
  , TopAction.functionDecl "callAPI"
  , TopAction.consoleLog "Cron job scheduler started"
  , TopAction.consoleLog "Job will run at the start of every hour (0 * * * *)"
  , TopAction.consoleLog "Running initial API call..."
  , TopAction.invokeCallAPI
  , TopAction.onSignal "SIGTERM"
  , TopAction.onSignal "SIGINT" ]

end Part000

/-- Claim C1, as stated, fails at a concrete input: with the network
returning a status 200 response, the index.js invocation receives a
response and reports success, but the report does not surface the
response status (line 19 of src/index.js logs only response.data), so
the status part of the claimed status/body surfacing is false. -/
theorem C1_counterexample_status_not_surfaced :
    (fun _ : Request => HttpResult.ok ⟨200, "ok"⟩) (mkRequest API_ENDPOINT_default)
      = HttpResult.ok ⟨200, "ok"⟩
    ∧ surfacesStatus
        (IndexJs.callAPI API_ENDPOINT_default
          (fun _ => HttpResult.ok ⟨200, "ok"⟩)).report = false :=
  ⟨rfl, rfl⟩

/-- Claim C1 (amended): for every invocation of the index.js variant in
which an HTTP response is received, the invocation reports success and
surfaces the response body, regardless of the status code, but does not
include the status code in the success report; a 4xx or 5xx response is
reported through the success path, never through the failure path. -/
theorem C1_response_always_success (endpoint : String)
    (net : Request → HttpResult) (status : Nat) (data : String)
    (h : net (mkRequest endpoint) = HttpResult.ok ⟨status, data⟩) :
    (IndexJs.callAPI endpoint net).report = Report.success none data := by
  simp only [IndexJs.callAPI]
  rw [h]

/-- Witness for claim C1: a 500 response is received and the invocation
reports success surfacing the body. -/
theorem C1_response_always_success_witness :
    (fun _ : Request => HttpResult.ok ⟨500, "server error body"⟩)
        (mkRequest API_ENDPOINT_default)
      = HttpResult.ok ⟨500, "server error body"⟩
    ∧ (IndexJs.callAPI API_ENDPOINT_default
        (fun _ => HttpResult.ok ⟨500, "server error body"⟩)).report
      = Report.success none "server error body" :=
  ⟨rfl, C1_response_always_success API_ENDPOINT_default
    (fun _ => HttpResult.ok ⟨500, "server error body"⟩) 500 "server error body" rfl⟩

/-- Claim C2: for every integer h in the range 0 to 23, getFrequency h
returns exactly the label the enumerated table of the spec assigns: 0
gives 24x, 12 gives 12x, 6 and 18 give 6x, 4, 8, 16 and 20 give 4x, 3,
9, 15 and 21 give 3x, 2, 10, 14 and 22 give 2x, and every remaining hour
gives 1x; the divisibility rules in priority order 24, 12, 6, 4, 3, 2
agree with the table, first match winning. -/
theorem C2_classify_matches_table :
    ∀ h : Nat, h < 24 → getFrequency h = classifySpecTable h := by
  decide

/-- Witness for claim C2 at hour 18. -/
theorem C2_classify_matches_table_witness :
    18 < 24 ∧ getFrequency 18 = classifySpecTable 18 :=
  ⟨by decide, C2_classify_matches_table 18 (by decide)⟩

/-- Claim C3: in the part_000 variant, where no binding named
getFrequency exists, every invocation of callAPI ends in the catch block
with the ReferenceError message and no attached response, issues no HTTP
request at all, and never reaches the success branch, whatever
implementation getFrequency would have had, whatever the hour, the
endpoint and the network behaviour. -/
theorem C3_part000_reference_error (gf : Nat → String) (hour : Nat)
    (endpoint : String) (net : Request → HttpResult) :
    (Part000.callAPI Part000.getFrequencyDefined gf hour endpoint net).requests = []
    ∧ (Part000.callAPI Part000.getFrequencyDefined gf hour endpoint net).report
      = Report.failure "getFrequency is not defined" none none :=
  ⟨rfl, rfl⟩

/-- Claim C4 evaluated: the index.js variant issues exactly one request
per invocation, but at the concrete input hour 0, default endpoint and a
network that would answer 200, the part_000 variant issues zero requests
(the undefined getFrequency aborts the try block before axios.get), so
the claim that both variants issue exactly one request fails on the code
as written, against the stated intent of the callAPI documentation
comment and of the README. -/
theorem C4_part000_issues_no_request :
    (IndexJs.callAPI API_ENDPOINT_default
      (fun _ => HttpResult.ok ⟨200, "ok"⟩)).requests.length = 1
    ∧ (Part000.callAPI Part000.getFrequencyDefined getFrequency 0 API_ENDPOINT_default
      (fun _ => HttpResult.ok ⟨200, "ok"⟩)).requests.length = 0 :=
  ⟨rfl, rfl⟩

/-- Claim C5: for every invocation in which the HTTP layer rejects with
an error, in the index.js variant, and in the part_000 request path (the
branch in which the name getFrequency resolves, whose catch block is
identical), the invocation reports failure surfacing the error message
and, exactly when a remote response is attached to the error, also the
attached status and body; when no response is attached, no status and no
body are reported. -/
theorem C5_failure_surfaces_error (endpoint : String)
    (net : Request → HttpResult) (e : AxiosError)
    (h : net (mkRequest endpoint) = HttpResult.err e) :
    (IndexJs.callAPI endpoint net).report
      = Report.failure e.message
          (Option.map Response.status e.response)
          (Option.map Response.data e.response)
    ∧ ∀ gf hour, (Part000.callAPI true gf hour endpoint net).report
      = Report.failure e.message
          (Option.map Response.status e.response)
          (Option.map Response.data e.response) := by
  constructor
  · simp only [IndexJs.callAPI]
    rw [h]
  · intro gf hour
    simp only [Part000.callAPI, if_pos]
    rw [h]

/-- Witness for claim C5: a connection-refused error with no attached
response yields a failure report with the message and no status or
body. -/
theorem C5_failure_surfaces_error_witness :
    (fun _ : Request => HttpResult.err ⟨"connect ECONNREFUSED", none⟩)
        (mkRequest API_ENDPOINT_default)
      = HttpResult.err ⟨"connect ECONNREFUSED", none⟩
    ∧ (IndexJs.callAPI API_ENDPOINT_default
        (fun _ => HttpResult.err ⟨"connect ECONNREFUSED", none⟩)).report
      = Report.failure "connect ECONNREFUSED" none none :=
  ⟨rfl, (C5_failure_surfaces_error API_ENDPOINT_default
    (fun _ => HttpResult.err ⟨"connect ECONNREFUSED", none⟩)
    ⟨"connect ECONNREFUSED", none⟩ rfl).1⟩

/-- Claim C6: every request issued by either variant, for any scope, any
frequency implementation, any hour, any endpoint and any network
behaviour, is a GET to exactly the given endpoint URL with an empty
query-parameter list, so in particular with no frequency parameter: the
index.js variant never computes a label, and the part_000 variant, in
the branch in which the label is computed, still issues the bare
request. -/
theorem C6_get_no_frequency_param (gfD : Bool) (gf : Nat → String)
    (hour : Nat) (endpoint : String) (net : Request → HttpResult)
    (req : Request)
    (h : req ∈ (IndexJs.callAPI endpoint net).requests
      ∨ req ∈ (Part000.callAPI gfD gf hour endpoint net).requests) :
    req.method = "GET" ∧ req.url = endpoint ∧ req.params = [] := by
  have hreq : req = mkRequest endpoint := by
    rcases h with h | h
    · simpa [IndexJs.callAPI] using h
    · cases gfD
      · simp [Part000.callAPI] at h
      · simpa [Part000.callAPI] using h
  subst hreq
  exact ⟨rfl, rfl, rfl⟩

/-- Witness for claim C6 on the request issued by the index.js
variant. -/
theorem C6_get_no_frequency_param_witness :
    (mkRequest API_ENDPOINT_default
        ∈ (IndexJs.callAPI API_ENDPOINT_default
            (fun _ => HttpResult.ok ⟨200, "ok"⟩)).requests
      ∨ mkRequest API_ENDPOINT_default
        ∈ (Part000.callAPI false getFrequency 0 API_ENDPOINT_default
            (fun _ => HttpResult.ok ⟨200, "ok"⟩)).requests)
    ∧ (mkRequest API_ENDPOINT_default).method = "GET"
    ∧ (mkRequest API_ENDPOINT_default).url = API_ENDPOINT_default
    ∧ (mkRequest API_ENDPOINT_default).params = [] :=
  ⟨Or.inl (List.Mem.head _),
   C6_get_no_frequency_param false getFrequency 0 API_ENDPOINT_default
     (fun _ => HttpResult.ok ⟨200, "ok"⟩) (mkRequest API_ENDPOINT_default)
     (Or.inl (List.Mem.head _))⟩

/-- Claim C7: with the environment variable unset, the endpoint of both
variants resolves to the hardcoded default URL, and every request of an
index.js invocation run against that resolved endpoint targets exactly
that URL; the resolved value is a constant of the embedding, never
mutated. -/
theorem C7_default_endpoint_when_unset :
    IndexJs.API_ENDPOINT none = "https://cloud.blackbox.ai/api/cron/resume-stalled"
    ∧ Part000.API_ENDPOINT none = "https://cloud.blackbox.ai/api/cron/resume-stalled"
    ∧ ∀ net : Request → HttpResult,
        List.map Request.url (IndexJs.callAPI (IndexJs.API_ENDPOINT none) net).requests
          = ["https://cloud.blackbox.ai/api/cron/resume-stalled"] :=
  ⟨rfl, rfl, fun _ => rfl⟩

/-- Claim C8: every request issued by either variant, for any scope, any
frequency implementation, any hour, any endpoint and any network
behaviour, carries a timeout of 30000 milliseconds, no request body, no
headers and no authentication. -/
theorem C8_timeout_no_body_no_headers (gfD : Bool) (gf : Nat → String)
    (hour : Nat) (endpoint : String) (net : Request → HttpResult)
    (req : Request)
    (h : req ∈ (IndexJs.callAPI endpoint net).requests
      ∨ req ∈ (Part000.callAPI gfD gf hour endpoint net).requests) :
    req.timeout = 30000 ∧ req.data = none ∧ req.headers = [] ∧ req.auth = none := by
  have hreq : req = mkRequest endpoint := by
    rcases h with h | h
    · simpa [IndexJs.callAPI] using h
    · cases gfD
      · simp [Part000.callAPI] at h
      · simpa [Part000.callAPI] using h
  subst hreq
  exact ⟨rfl, rfl, rfl, rfl⟩

/-- Witness for claim C8 on the request issued by the part_000 variant
in the branch where the frequency label resolves. -/
theorem C8_timeout_no_body_no_headers_witness :
    (mkRequest API_ENDPOINT_default
        ∈ (IndexJs.callAPI API_ENDPOINT_default
            (fun _ => HttpResult.ok ⟨200, "ok"⟩)).requests
      ∨ mkRequest API_ENDPOINT_default
        ∈ (Part000.callAPI true getFrequency 5 API_ENDPOINT_default
            (fun _ => HttpResult.ok ⟨200, "ok"⟩)).requests)
    ∧ (mkRequest API_ENDPOINT_default).timeout = 30000
    ∧ (mkRequest API_ENDPOINT_default).data = none
    ∧ (mkRequest API_ENDPOINT_default).headers = []
    ∧ (mkRequest API_ENDPOINT_default).auth = none :=
  ⟨Or.inr (List.Mem.head _),
   C8_timeout_no_body_no_headers true getFrequency 5 API_ENDPOINT_default
     (fun _ => HttpResult.ok ⟨200, "ok"⟩) (mkRequest API_ENDPOINT_default)
     (Or.inr (List.Mem.head _))⟩

/-- Claim C9: in the top-level statement sequence of both variants the
node-cron module is required exactly once, no cron.schedule registration
occurs at all, and callAPI is invoked exactly once, at startup; any
hourly repetition can only come from a trigger outside the process. -/
theorem C9_no_schedule_single_invocation :
    (IndexJs.toplevel.filter (isRequireOf "node-cron")).length = 1
    ∧ (IndexJs.toplevel.filter isCronSchedule).length = 0
    ∧ (IndexJs.toplevel.filter isInvokeCallAPI).length = 1
    ∧ (Part000.toplevel.filter (isRequireOf "node-cron")).length = 1
    ∧ (Part000.toplevel.filter isCronSchedule).length = 0
    ∧ (Part000.toplevel.filter isInvokeCallAPI).length = 1 := by
  decide

/-- Claim C10: setting the environment variable to the empty string
resolves to the same endpoint as leaving it unset, namely the hardcoded
default, in both variants: the fallback tests falsiness, not presence,
so an empty-string setting is indistinguishable from an unset variable
at the public interface. -/
theorem C10_empty_env_equals_unset :
    IndexJs.API_ENDPOINT (some "") = IndexJs.API_ENDPOINT none
    ∧ Part000.API_ENDPOINT (some "") = Part000.API_ENDPOINT none
    ∧ IndexJs.API_ENDPOINT (some "") = API_ENDPOINT_default := by
  refine ⟨?_, ?_, ?_⟩ <;> decide
